import Mathlib

/-!
A shallow embedding of the `say` schema validator: the schema data model of
`src/schema.rs` and the validation engine of `src/validator.rs`.

Conventions of the embedding:
  * `serde_json::Value` is the inductive `Value`; the numeric payload is
    modelled as `Int` because the validator never inspects it.  Objects are
    association lists, mirroring iteration over `serde_json::Map`.
  * Rust `u64` sizes become `Nat`, `i32` bounds become `Int`.
  * Fallible code is explicit: `validate_meta` returns
    `Except RustPanic Bool`, where `RustPanic.unreachableBranch` models the
    `unreachable!()` arms and `RustPanic.regexUnwrap` models the
    `Regex::new(..).unwrap()` panic on an unparsable pattern.
  * `HashMap<String, DataType>` becomes an association list; the only
    operation the validator uses is `contains_key`.
  * The external `regex` crate is modelled by a small regex AST, a
    recursive-descent reader faithful to the crate's grammar for the syntax
    the repository can exercise, and a position-set matcher implementing
    `is_match` (a match may start anywhere) with `^` and `$` as start/end
    of haystack assertions.
-/

/-- JSON document values, mirroring `serde_json::Value`.  The numeric payload
is modelled as `Int`; the validator never inspects it. -/
inductive Value where
  | null
  | bool (b : Bool)
  | num (n : Int)
  | str (s : String)
  | arr (items : List Value)
  | obj (entries : List (String × Value))

/-- The panics the validator code can raise: the `unreachable!()` arms in the
`validate_meta` implementations, and the `unwrap()` on `regex::Regex::new`. -/
inductive RustPanic where
  | unreachableBranch
  | regexUnwrap
deriving DecidableEq

/-- The six runtime kinds of a JSON value. -/
inductive JsonKind where
  | null
  | boolean
  | number
  | string
  | array
  | object
deriving DecidableEq

/-- The runtime kind of a document value. -/
def Value.kindOf : Value → JsonKind
  | .null => .null
  | .bool _ => .boolean
  | .num _ => .number
  | .str _ => .string
  | .arr _ => .array
  | .obj _ => .object

/-- Structure `StringType` of `src/schema.rs`. -/
structure StringType where
  optional : Bool
  nullable : Bool
  length : Option Nat
  regex : Option String

/-- Structure `LiteralType` of `src/schema.rs`. -/
structure LiteralType where
  optional : Bool
  nullable : Bool
  candidate : List String

/-- Structure `BooleanType` of `src/schema.rs`. -/
structure BooleanType where
  optional : Bool
  nullable : Bool

/-- Structure `NumberType` of `src/schema.rs`. -/
structure NumberType where
  optional : Bool
  nullable : Bool
  max : Option Int
  min : Option Int

/-- Enum `DataType` of `src/schema.rs`.  `DictType` and `ListType` contain
`DataType` recursively, so their fields are inlined into the constructors
(with the source field names as argument names); the four non-recursive
node types keep their own structures. -/
inductive DataType where
  | dict (optional : Bool) (nullable : Bool)
      (fields : List (String × DataType))
      (any_fields : Option (List (String × DataType)))
      (others : Option DataType)
  | list (optional : Bool) (nullable : Bool)
      (element_type : DataType) (limit : Option Nat)
  | string (st : StringType)
  | literal (lt : LiteralType)
  | boolean (bt : BooleanType)
  | number (nt : NumberType)

/-- The JSON kind each schema variant expects in its shape check. -/
def DataType.expectedKind : DataType → JsonKind
  | .dict _ _ _ _ _ => .object
  | .list _ _ _ _ => .array
  | .string _ => .string
  | .literal _ => .string
  | .boolean _ => .boolean
  | .number _ => .number

/-- Rust `String::len`: the UTF-8 byte count of the string (not the number of
characters). -/
def rustLen (s : String) : Nat :=
  s.data.foldl (fun n c => n + c.utf8Size) 0

/-- Models `HashMap::contains_key` on the association-list model of `fields`. -/
def containsKey (fields : List (String × DataType)) (k : String) : Bool :=
  fields.any (fun p => p.1 == k)

/-- Method `validate_type` of the `Validator` impls in `src/validator.rs`: each
variant is a `matches!` test of the document value's runtime kind; the
`DataType` impl dispatches to the inner node type.  (The source carries a
`todo nullable and optional` comment here: `null` is never accepted.) -/
def DataType.validate_type : DataType → Value → Bool
  | .dict _ _ _ _ _, .obj _ => true
  | .dict _ _ _ _ _, _ => false
  | .list _ _ _ _, .arr _ => true
  | .list _ _ _ _, _ => false
  | .string _, .str _ => true
  | .string _, _ => false
  | .literal _, .str _ => true
  | .literal _, _ => false
  | .boolean _, .bool _ => true
  | .boolean _, _ => false
  | .number _, .num _ => true
  | .number _, _ => false

/-- The element loop of `ListType::validate_meta`: run `f` on each item in
order, returning `false` at the first non-conforming item (later items are
not evaluated) and propagating a panic. -/
def validateItems (f : Value → Except RustPanic Bool) :
    List Value → Except RustPanic Bool
  | [] => .ok true
  | x :: xs =>
    match f x with
    | .ok true => validateItems f xs
    | .ok false => .ok false
    | .error e => .error e

/-- Abstract syntax for the fragment of the external `regex` crate's pattern
language that the repository's schemas can exercise: literal characters,
`.`, character classes (possibly negated, lists of inclusive ranges),
the anchors `^` and `$`, concatenation, alternation `|`, and the postfix
repetition operators `*`, `+`, `?`. -/
inductive Regex where
  | eps
  | chr (c : Char)
  | dot
  | cls (neg : Bool) (ranges : List (Char × Char))
  | caret
  | dollar
  | cat (r1 r2 : Regex)
  | alt (r1 r2 : Regex)
  | star (r : Regex)
  | plus (r : Regex)
  | opt (r : Regex)

/-- Membership of a character in a list of inclusive ranges. -/
def charInRanges (c : Char) (ranges : List (Char × Char)) : Bool :=
  ranges.any (fun p => p.1.toNat ≤ c.toNat && c.toNat ≤ p.2.toNat)

/-- Saturating closure used for repetition: repeatedly extend a set of
reachable end positions with `step` until nothing new appears.  Fuel
`n + 1`, where `n` bounds the number of distinct positions, always
saturates. -/
def starStep (step : Nat → List Nat) : Nat → List Nat → List Nat
  | 0, acc => acc
  | fuel + 1, acc =>
    let next := (acc.flatMap step).filter (fun p => !acc.contains p)
    if next.isEmpty then acc else starStep step fuel (acc ++ next)

/-- The matcher of the regex model: `positions s r pos` is the list of end
positions of matches of `r` in the character list `s` that start at `pos`.
`^` asserts the start of the haystack and `$` its end, as in the `regex`
crate (without multi-line mode). -/
def positions (s : List Char) : Regex → Nat → List Nat
  | .eps, pos => [pos]
  | .chr c, pos =>
    match s.get? pos with
    | some c2 => if c2 = c then [pos + 1] else []
    | none => []
  | .dot, pos =>
    match s.get? pos with
    | some _ => [pos + 1]
    | none => []
  | .cls neg ranges, pos =>
    match s.get? pos with
    | some c2 => if charInRanges c2 ranges != neg then [pos + 1] else []
    | none => []
  | .caret, pos => if pos = 0 then [pos] else []
  | .dollar, pos => if pos = s.length then [pos] else []
  | .cat r1 r2, pos => (positions s r1 pos).flatMap (fun q => positions s r2 q)
  | .alt r1 r2, pos => positions s r1 pos ++ positions s r2 pos
  | .star r, pos => starStep (fun q => positions s r q) (s.length + 1) [pos]
  | .plus r, pos =>
    (positions s r pos).flatMap (fun q => starStep (fun q2 => positions s r q2) (s.length + 1) [q])
  | .opt r, pos => pos :: positions s r pos

/-- Models `regex::Regex::is_match`: some match of `r` starts somewhere in `s`. -/
def isMatch (r : Regex) (s : String) : Bool :=
  (List.range (s.data.length + 1)).any (fun st => !(positions s.data r st).isEmpty)

/-- Escape sequences of the modelled fragment: the Perl classes
`\d \D \w \W \s \S`, the control escapes `\n \t \r`, and escaped
punctuation.  Remaining alphanumeric escapes (including back-references)
are rejected, as the crate rejects unrecognized escapes. -/
def escRegex (c : Char) : Option Regex :=
  if c = 'd' then some (.cls false [('0', '9')])
  else if c = 'D' then some (.cls true [('0', '9')])
  else if c = 'w' then some (.cls false [('0', '9'), ('A', 'Z'), ('a', 'z'), ('_', '_')])
  else if c = 'W' then some (.cls true [('0', '9'), ('A', 'Z'), ('a', 'z'), ('_', '_')])
  else if c = 's' then
    some (.cls false [(' ', ' '), ('\t', '\t'), ('\n', '\n'), ('\r', '\r'), ('\x0B', '\x0C')])
  else if c = 'S' then
    some (.cls true [(' ', ' '), ('\t', '\t'), ('\n', '\n'), ('\r', '\r'), ('\x0B', '\x0C')])
  else if c = 'n' then some (.chr '\n')
  else if c = 't' then some (.chr '\t')
  else if c = 'r' then some (.chr '\r')
  else if c.isAlphanum then none
  else some (.chr c)

/-- One literal character inside a character class (handling escapes; an
unescaped `]` ends the class). -/
def classChar : List Char → Option (Char × List Char)
  | [] => none
  | '\\' :: c :: rest => if c.isAlphanum then none else some (c, rest)
  | '\\' :: [] => none
  | c :: rest => if c = ']' then none else some (c, rest)

/-- The body of a character class `[...]`: a sequence of single characters
and `a-b` ranges, terminated by `]`. -/
def classBody : Nat → List Char → Option (List (Char × Char) × List Char)
  | 0, _ => none
  | _, ']' :: rest => some ([], rest)
  | fuel + 1, cs =>
    match classChar cs with
    | none => none
    | some (c1, rest1) =>
      match rest1 with
      | '-' :: ']' :: rest2 => some ([(c1, c1), ('-', '-')], rest2)
      | '-' :: rest2 =>
        match classChar rest2 with
        | none => none
        | some (c2, rest3) =>
          match classBody fuel rest3 with
          | none => none
          | some (items, rest4) => some ((c1, c2) :: items, rest4)
      | _ =>
        match classBody fuel rest1 with
        | none => none
        | some (items, rest2) => some ((c1, c1) :: items, rest2)

/-- Peel the postfix repetition operators `*`, `+`, `?` off an atom. -/
def applyRepeatOps : Regex → List Char → Regex × List Char
  | r, '*' :: rest => applyRepeatOps (.star r) rest
  | r, '+' :: rest => applyRepeatOps (.plus r) rest
  | r, '?' :: rest => applyRepeatOps (.opt r) rest
  | r, cs => (r, cs)

mutual

/-- An alternation: concatenations separated by `|` (lowest precedence, so
`^a|b$` reads as `(^a)|(b$)`, exactly as in the `regex` crate). -/
def readAlt : Nat → List Char → Option (Regex × List Char)
  | 0, _ => none
  | fuel + 1, cs =>
    match readConcat fuel cs with
    | none => none
    | some (r1, rest) =>
      match rest with
      | '|' :: rest2 =>
        match readAlt fuel rest2 with
        | none => none
        | some (r2, rest3) => some (.alt r1 r2, rest3)
      | _ => some (r1, rest)

/-- A concatenation: a (possibly empty) run of atoms with their repetition
operators, stopping at `|`, `)` or the end of the pattern. -/
def readConcat : Nat → List Char → Option (Regex × List Char)
  | 0, _ => none
  | fuel + 1, cs =>
    match cs with
    | [] => some (.eps, [])
    | c :: _ =>
      if c = '|' ∨ c = ')' then some (.eps, cs)
      else
        match readAtom fuel cs with
        | none => none
        | some (r1, rest1) =>
          match applyRepeatOps r1 rest1 with
          | (r2, rest2) =>
            match readConcat fuel rest2 with
            | none => none
            | some (r3, rest3) => some (.cat r2 r3, rest3)

/-- One atom: a group `( ... )`, a class `[ ... ]`, `.`, `^`, `$`, an escape,
or a literal character.  A repetition operator with no preceding atom, an
unclosed group or class, an empty class and a trailing backslash are
errors, as in the `regex` crate. -/
def readAtom : Nat → List Char → Option (Regex × List Char)
  | 0, _ => none
  | fuel + 1, cs =>
    match cs with
    | [] => none
    | '(' :: rest =>
      match readAlt fuel rest with
      | none => none
      | some (r, rest2) =>
        match rest2 with
        | ')' :: rest3 => some (r, rest3)
        | _ => none
    | '[' :: '^' :: rest =>
      match classBody (rest.length + 1) rest with
      | none => none
      | some (items, rest2) => if items.isEmpty then none else some (.cls true items, rest2)
    | '[' :: rest =>
      match classBody (rest.length + 1) rest with
      | none => none
      | some (items, rest2) => if items.isEmpty then none else some (.cls false items, rest2)
    | '.' :: rest => some (.dot, rest)
    | '^' :: rest => some (.caret, rest)
    | '$' :: rest => some (.dollar, rest)
    | '\\' :: c :: rest =>
      match escRegex c with
      | none => none
      | some r => some (r, rest)
    | '\\' :: [] => none
    | c :: rest =>
      if c = '*' ∨ c = '+' ∨ c = '?' then none
      else some (.chr c, rest)

end

/-- Models `regex::Regex::new` on the modelled fragment: `none` models
`Err`/`unwrap` panic.  The fuel is ample: every recursive call of the
reader either consumes a character or descends one grammar level. -/
def regexCompile (p : String) : Option Regex :=
  match readAlt (8 * p.data.length + 8) p.data with
  | some (r, []) => some r
  | _ => none

/-- Method `validate_meta` of the `Validator` impls in `src/validator.rs`, with the
`DataType` impl's dispatch inlined.  Each container/string/literal variant
re-matches the value's kind and panics (`unreachable!()`) on a mismatch.
* Dict: every key of the object must be in `fields` (field values are not
  validated; `any_fields` and `others` are not consulted).
* List: the `limit` bound, then every element against `element_type` via the
  composed `validate`.
* Literal: `candidate.contains` on the string.
* String: the `length` bound on `String::len`, then the pattern wrapped in
  `^...$` is compiled (`unwrap` panics on an unparsable pattern) and
  `is_match` is required.
* Boolean: `self.validate_type(&node)` again; Number: `true`. -/
def DataType.validate_meta : DataType → Value → Except RustPanic Bool
  | .dict _ _ fields _ _, v =>
    match v with
    | .obj entries => .ok (entries.all (fun kv => containsKey fields kv.1))
    | _ => .error .unreachableBranch
  | .list _ _ et limit, v =>
    match v with
    | .arr items =>
      match limit with
      | some k =>
        if items.length > k then .ok false
        else
          validateItems
            (fun item => if et.validate_type item then et.validate_meta item else .ok false)
            items
      | none =>
        validateItems
          (fun item => if et.validate_type item then et.validate_meta item else .ok false)
          items
    | _ => .error .unreachableBranch
  | .literal lt, v =>
    match v with
    | .str s => .ok (lt.candidate.contains s)
    | _ => .error .unreachableBranch
  | .string st, v =>
    match v with
    | .str s =>
      if (match st.length with | some l => decide (rustLen s > l) | none => false) then .ok false
      else
        match st.regex with
        | none => .ok true
        | some p =>
          match regexCompile ("^" ++ p ++ "$") with
          | none => .error .regexUnwrap
          | some r => .ok (isMatch r s)
    | _ => .error .unreachableBranch
  | .boolean bt, v => .ok ((DataType.boolean bt).validate_type v)
  | .number _, _ => .ok true

/-- Method `Validator::validate`: `self.validate_type(&node) && self.validate_meta(&node)`
with Rust's short-circuiting `&&`. -/
def DataType.validate (dt : DataType) (v : Value) : Except RustPanic Bool :=
  if dt.validate_type v then dt.validate_meta v else .ok false

/-- Modelled from the spec: "the entire string must match the pattern" — the
conformance the specification describes for a String node's `regex` is that
the whole document string matches the pattern itself, not merely a
substring of it.  Defined for comparison with the source behaviour. -/
def regexFullMatch (p s : String) : Option Bool :=
  match regexCompile p with
  | none => none
  | some r => some ((positions s.data r 0).contains s.data.length)

/-- The element loop succeeds exactly when every element of the list
succeeds. -/
theorem validateItems_ok_iff (f : Value → Except RustPanic Bool) (xs : List Value) :
    validateItems f xs = Except.ok true ↔ ∀ x ∈ xs, f x = Except.ok true := by
  induction xs with
  | nil => simp [validateItems]
  | cons x xs ih =>
    simp only [validateItems, List.forall_mem_cons]
    rcases h : f x with e | b
    · simp [h]
    · cases b
      · simp [h]
      · simp [h, ih]

/-- The element loop raises only panics that `f` itself raises. -/
theorem validateItems_no_unreach (f : Value → Except RustPanic Bool) (xs : List Value)
    (hf : ∀ x ∈ xs, f x ≠ Except.error RustPanic.unreachableBranch) :
    validateItems f xs ≠ Except.error RustPanic.unreachableBranch := by
  induction xs with
  | nil => simp [validateItems]
  | cons x xs ih =>
    simp only [validateItems]
    rcases h : f x with e | b
    · have := hf x (by simp)
      rw [h] at this
      simpa using fun hcontra => this (by rw [hcontra])
    · cases b
      · simp
      · exact ih (fun y hy => hf y (by simp [hy]))

/-- If the shape check of a node accepted a value, the node's constraint
check never reaches its `unreachable!()` arm: the re-match of the value's
kind always succeeds, recursively so for list elements. -/
theorem validate_meta_safe :
    ∀ (dt : DataType) (v : Value), dt.validate_type v = true →
      dt.validate_meta v ≠ Except.error RustPanic.unreachableBranch
  | .dict o n fs af ot, v => by
    cases v <;> simp [DataType.validate_type, DataType.validate_meta]
  | .list o n et lim, v => by
    cases v with
    | arr items =>
      intro _
      have hf : ∀ x ∈ items,
          (fun item => if et.validate_type item then et.validate_meta item else Except.ok false) x
            ≠ Except.error RustPanic.unreachableBranch := by
        intro x _
        by_cases hx : et.validate_type x
        · simpa [hx] using validate_meta_safe et x hx
        · simp [hx]
      simp only [DataType.validate_meta]
      cases lim with
      | none => exact validateItems_no_unreach _ _ hf
      | some k =>
        by_cases hl : items.length > k
        · simp [hl]
        · simpa [hl] using validateItems_no_unreach _ _ hf
    | null => intro h; simp [DataType.validate_type] at h
    | bool b => intro h; simp [DataType.validate_type] at h
    | num q => intro h; simp [DataType.validate_type] at h
    | str s => intro h; simp [DataType.validate_type] at h
    | obj entries => intro h; simp [DataType.validate_type] at h
  | .string st, v => by
    cases v <;> intro h <;> simp [DataType.validate_type] at h
    simp only [DataType.validate_meta]
    split
    · simp
    · split
      · simp
      · split <;> simp
  | .literal lt, v => by
    cases v <;> simp [DataType.validate_type, DataType.validate_meta]
  | .boolean bt, v => by
    cases v <;> simp [DataType.validate_type, DataType.validate_meta]
  | .number nt, v => by
    cases v <;> simp [DataType.validate_type, DataType.validate_meta]

/-- C1: the code evaluated at the claim's failing inputs — `validate` returns
`fail` on `null` for every schema node, regardless of the `nullable` flag
(in particular for every node with `nullable = true`, contradicting the
claim that such nodes pass on `null`; `validate_type` carries a
`todo nullable and optional` comment and never consults the flag). -/
theorem null_always_fails_regardless_of_nullable (dt : DataType) :
    dt.validate Value.null = Except.ok false := by
  have h : dt.validate_type Value.null = false := by cases dt <;> rfl
  simp [DataType.validate, h]

/-- C2: Dict baseline characterization — validating an object against a Dict
node succeeds exactly when every key present in the object is declared in
`fields`, and fails exactly when some present key is undeclared; field
values are never consulted and absent declared fields cannot cause
failure. -/
theorem dict_baseline_characterization (o n : Bool)
    (fields : List (String × DataType)) (af : Option (List (String × DataType)))
    (ot : Option DataType) (entries : List (String × Value)) :
    (DataType.validate (.dict o n fields af ot) (Value.obj entries) = Except.ok true ↔
      ∀ kv ∈ entries, containsKey fields kv.1 = true) ∧
    (DataType.validate (.dict o n fields af ot) (Value.obj entries) = Except.ok false ↔
      ∃ kv ∈ entries, containsKey fields kv.1 = false) := by
  constructor
  · simp [DataType.validate, DataType.validate_type, DataType.validate_meta,
      List.all_eq_true]
  · simp [DataType.validate, DataType.validate_type, DataType.validate_meta,
      List.all_eq_false]

/-- C3 counterexample: the claim "a string passes the length constraint iff
its character count is ≤ L" is false at `length = 3` and value `"中中"`:
the character count is 2 ≤ 3, yet validation fails (the code bounds
`String::len`, the UTF-8 byte count 6). -/
theorem length_char_count_counterexample :
    DataType.validate (.string ⟨false, false, some 3, none⟩) (Value.str ("中中")) =
      Except.ok false ∧
    String.length ("中中") ≤ 3 :=
  ⟨rfl, by decide⟩

/-- C3 amended: the `length` constraint of a String node bounds the UTF-8
byte count of the value (Rust `String::len`), not its character count; a
multi-byte character counts as its byte width. -/
theorem length_is_byte_count (o n : Bool) (L : Nat) (s : String) :
    DataType.validate (.string ⟨o, n, some L, none⟩) (Value.str s) = Except.ok true ↔
      rustLen s ≤ L := by
  have hval : DataType.validate (.string ⟨o, n, some L, none⟩) (Value.str s)
      = if decide (rustLen s > L) then Except.ok false else Except.ok true := rfl
  rw [hval]
  by_cases h : rustLen s > L
  · simp [h]
  · simp [h]
    omega

/-- C4 counterexample: the claim "calling validate never turns an unparsable
regex into a validation-time fatal error" is false — with pattern `(` and
document value `"a"`, `validate` reaches `Regex::new(..).unwrap()` and
panics at validation time. -/
theorem regex_validation_time_panic_counterexample :
    DataType.validate (.string ⟨false, false, none, some ("(")⟩) (Value.str ("a")) =
      Except.error RustPanic.regexUnwrap := rfl

/-- C4 amended: an unparsable regex pattern is not rejected when the schema
is constructed; the pattern is compiled on every validation call, and any
string value reaching the regex check of such a node makes `validate`
panic (`unwrap` on the failed compilation) at validation time.  (An
unknown `type` discriminant, by contrast, is rejected by the tagged-enum
deserialization at load time.) -/
theorem unparsable_regex_panics_at_validation (o n : Bool) (p s : String)
    (h : regexCompile ("^" ++ p ++ "$") = none) :
    DataType.validate (.string ⟨o, n, none, some p⟩) (Value.str s) =
      Except.error RustPanic.regexUnwrap := by
  have hval : DataType.validate (.string ⟨o, n, none, some p⟩) (Value.str s)
      = (match regexCompile ("^" ++ p ++ "$") with
         | none => Except.error RustPanic.regexUnwrap
         | some r => Except.ok (isMatch r s)) := rfl
  rw [hval, h]

/-- Witness for the amended C4 theorem at pattern `[` and value `"xy"`. -/
theorem unparsable_regex_panics_witness :
    DataType.validate (.string ⟨false, false, none, some ("[")⟩) (Value.str ("xy")) =
      Except.error RustPanic.regexUnwrap :=
  unparsable_regex_panics_at_validation false false ("[") ("xy") rfl

/-- C5: the code evaluated at the claim's failing input — for the pattern
`a|b` the textual anchoring `^a|b$` parses as `(^a)|(b$)`, so the value
`"ax"` passes validation although the entire string does not match the
pattern (it only contains a match as a proper prefix), contradicting the
full-match anchoring the claim states. -/
theorem regex_anchoring_alternation_divergence :
    DataType.validate (.string ⟨false, false, none, some ("a|b")⟩) (Value.str ("ax")) =
      Except.ok true ∧
    regexFullMatch ("a|b") ("ax") = some false :=
  ⟨rfl, rfl⟩

/-- C6: List characterization — with `limit = K`, validating an array
succeeds iff its length is at most `K` and every element validates against
`element_type`; and an array longer than `K` fails outright. -/
theorem list_characterization (o n : Bool) (et : DataType) (K : Nat) (a : List Value) :
    (DataType.validate (.list o n et (some K)) (Value.arr a) = Except.ok true ↔
      a.length ≤ K ∧ ∀ x ∈ a, DataType.validate et x = Except.ok true) ∧
    (a.length > K →
      DataType.validate (.list o n et (some K)) (Value.arr a) = Except.ok false) := by
  have hval : DataType.validate (.list o n et (some K)) (Value.arr a)
      = if a.length > K then Except.ok false
        else validateItems (DataType.validate et) a := rfl
  constructor
  · rw [hval]
    by_cases h : a.length > K
    · simp [h]
    · have hle : a.length ≤ K := Nat.le_of_not_lt h
      simp [h, validateItems_ok_iff, hle]
  · intro h
    rw [hval]
    simp [h]

/-- Witness for the C6 theorem: two booleans against `limit = 1`. -/
theorem list_characterization_witness :
    DataType.validate (.list false false (.boolean ⟨false, false⟩) (some 1))
      (Value.arr [Value.bool true, Value.bool false]) = Except.ok false :=
  (list_characterization false false (.boolean ⟨false, false⟩) 1
    [Value.bool true, Value.bool false]).2 (by decide)

/-- C7: the shape check accepts a value exactly when its runtime kind is the
variant's expected kind (Dict→object, List→array, String→string,
Literal→string, Boolean→boolean, Number→number), and whenever the shape
check rejects, the composed `validate` returns `fail` without the
constraint check contributing (no constraint effect — in particular no
panic — can occur). -/
theorem shape_check_and_phase_ordering (dt : DataType) (v : Value) :
    (dt.validate_type v = true ↔ v.kindOf = dt.expectedKind) ∧
    (dt.validate_type v = false → dt.validate v = Except.ok false) := by
  constructor
  · cases dt <;> cases v <;>
      simp [DataType.validate_type, Value.kindOf, DataType.expectedKind]
  · intro h
    simp [DataType.validate, h]

/-- Witness for the C7 theorem: a Number node against a string value. -/
theorem shape_check_witness :
    DataType.validate (.number ⟨false, false, none, none⟩) (Value.str ("x")) =
      Except.ok false :=
  (shape_check_and_phase_ordering (.number ⟨false, false, none, none⟩)
    (Value.str ("x"))).2 rfl

/-- C8: Number bounds are inert — a Number node accepts every JSON number
value regardless of its `min` and `max` fields. -/
theorem number_bounds_inert (o n : Bool) (mx mn : Option Int) (q : Int) :
    DataType.validate (.number ⟨o, n, mx, mn⟩) (Value.num q) = Except.ok true := rfl

/-- C9: Literal membership — a string passes a Literal node iff it equals
(exactly, case-sensitively) some entry of `candidate`; with an empty
candidate list every string fails. -/
theorem literal_membership (lt : LiteralType) (s : String) :
    DataType.validate (.literal lt) (Value.str s) = Except.ok true ↔
      s ∈ lt.candidate := by
  simp [DataType.validate, DataType.validate_type, DataType.validate_meta]

/-- C10: the `unreachable!()` panic arms are guarded — whenever
`validate_meta` is entered under the precondition established by the
composed `validate` (`validate_type` returned `true`), the re-match of the
value's kind succeeds and the unreachable arm is never taken, recursively
so for list elements. -/
theorem unreachable_branches_guarded (dt : DataType) (v : Value)
    (h : dt.validate_type v = true) :
    dt.validate_meta v ≠ Except.error RustPanic.unreachableBranch :=
  validate_meta_safe dt v h

/-- Witness for the C10 theorem: a Boolean node against a boolean value. -/
theorem unreachable_branches_guarded_witness :
    (DataType.boolean ⟨false, false⟩).validate_meta (Value.bool true) ≠
      Except.error RustPanic.unreachableBranch :=
  unreachable_branches_guarded (.boolean ⟨false, false⟩) (Value.bool true) rfl
